import Mathlib

/-!
Verification development for the DSWx-SAR bimodality refinement module
(`src/dswx_sar/refine_with_bimodality.py`).

The Python module refines a binary water mask by per-component statistical
tests.  We shallowly embed the decision logic of the module in Lean:

* rasters become total functions `ℕ → ℕ → α` together with explicit
  dimensions `r` (rows) and `c` (columns); a NaN intensity pixel is `none`
  in an `Option ℚ` valued raster;
* the numpy reductions used by the module (`nanmean`, `nanmedian`,
  `nanpercentile`, boolean-mask extraction in row-major order,
  `scipy.ndimage.binary_dilation` with a mask and the default
  4-connected structuring element) are implemented directly;
* the two library computations whose numerics are out of scope for the
  embedding — `BimodalityMetrics(...).compute_metric(...)` applied to a
  sample and `estimate_bimodality(10*log10(...))` applied to a sample —
  enter the per-component classifiers as oracle parameters, so every
  theorem below holds for an arbitrary outcome of those computations.
  The decision rule of `compute_metric` itself is embedded separately
  (`compute_metric` below) with the five metric values as parameters.

All rational constants of the source (`0.8`, `0.99`, `1.5`, `5/9`, ...) are
kept exactly.
-/

/-! ## Numpy-style reductions on rational samples -/

/-- Insert a value into a sorted list of rationals (ascending). -/
def insertSorted (x : ℚ) : List ℚ → List ℚ
  | [] => [x]
  | y :: ys => if x ≤ y then x :: y :: ys else y :: insertSorted x ys

/-- Ascending insertion sort, the order `np.sort`/`np.percentile` use. -/
def sortQ (xs : List ℚ) : List ℚ := xs.foldr insertSorted []

/-- Model of `np.nanmean`: drop NaN entries (`none`) and average the rest;
an empty valid sample yields NaN (`none`). -/
def nanmean (xs : List (Option ℚ)) : Option ℚ :=
  match xs.filterMap id with
  | [] => none
  | v => some (v.sum / v.length)

/-- Model of `np.nanpercentile` with the default linear interpolation:
drop NaN entries, sort ascending, and interpolate at position
`q/100 * (n-1)`.  An empty valid sample yields NaN (`none`). -/
def nanpercentile (q : ℚ) (xs : List (Option ℚ)) : Option ℚ :=
  match sortQ (xs.filterMap id) with
  | [] => none
  | v =>
    let n := v.length
    let pos : ℚ := q / 100 * (n - 1)
    let k : ℕ := (⌊pos⌋).toNat
    let frac : ℚ := pos - (k : ℚ)
    some (v.getD k 0 + frac * (v.getD (min (k + 1) (n - 1)) 0 - v.getD k 0))

/-- Model of `np.nanmedian`, which equals the 50th linear-interpolation
percentile of the valid entries. -/
def nanmedian (xs : List (Option ℚ)) : Option ℚ := nanpercentile 50 xs

/-- Comparison `a > b` on possibly-NaN values: any comparison with NaN
is false in numpy/python, as is a comparison of two NaNs. -/
def optGt (a b : Option ℚ) : Bool :=
  match a, b with
  | some x, some y => decide (y < x)
  | _, _ => false

/-! ## The dilation margin

The source computes `margin = int((np.sqrt(2) - 1.2) * np.sqrt(sizes))`.
Since `√2 − 1.2 > 0`, `int` truncation is the floor
`⌊(√2 − 1.2)·√n⌋`.  For natural `k` and `n`,
`k ≤ (√2 − 1.2)·√n` iff `100·k² ≤ 344·n` and
`115200·n² ≤ (344·n − 100·k²)²` (square twice; `(√2−1.2)² = 3.44 − 2.4·√2`,
and `(2.4·√2·n)² = 11.52·n²`; scaling by 100 resp. 10000 clears the
decimals), which lets us compute the floor with integer arithmetic. -/

/-- Whether `k ≤ (√2 − 1.2)·√n`, decided in integer arithmetic. -/
def marginLe (k n : ℕ) : Bool :=
  decide (100 * (k : ℤ) ^ 2 ≤ 344 * (n : ℤ)) &&
  decide (115200 * (n : ℤ) ^ 2 ≤ (344 * (n : ℤ) - 100 * (k : ℤ) ^ 2) ^ 2)

/-- `⌊(√2 − 1.2)·√n⌋` — the raw dilation margin of both component
classifiers (`int((np.sqrt(2) - 1.2) * np.sqrt(sizes))`). -/
def marginFloor (n : ℕ) : ℕ :=
  ((List.range (n + 1)).filter fun k => marginLe k n).foldr max 0

/-! ## Rasters, boolean-mask extraction and `binary_dilation` -/

/-- Bounds-checked lookup in an `r × c` boolean raster; outside the
raster everything is false (scipy's `border_value=0`). -/
def gridAt (r c : ℕ) (g : ℕ → ℕ → Bool) (i j : ℕ) : Bool :=
  decide (i < r) && decide (j < c) && g i j

/-- One pixel of one binary-dilation step with the default 4-connected
(cross) structuring element: the pixel itself or one of its four edge
neighbours is set. -/
def dilationHit (r c : ℕ) (g : ℕ → ℕ → Bool) (i j : ℕ) : Bool :=
  gridAt r c g i j ||
  (decide (0 < i) && gridAt r c g (i - 1) j) || gridAt r c g (i + 1) j ||
  (decide (0 < j) && gridAt r c g i (j - 1)) || gridAt r c g i (j + 1)

/-- One iteration of `scipy.ndimage.binary_dilation` with a mask: only
pixels where the mask is true may change, all others keep their value. -/
def dilationStep (r c : ℕ) (mask : ℕ → ℕ → Bool) (cur : ℕ → ℕ → Bool) :
    ℕ → ℕ → Bool :=
  fun i j => if mask i j then dilationHit r c cur i j else cur i j

/-- Model of `scipy.ndimage.binary_dilation(input, iterations=it, mask=mask)`
with the default structuring element. -/
def binary_dilation (r c : ℕ) (input : ℕ → ℕ → Bool) (it : ℕ)
    (mask : ℕ → ℕ → Bool) : ℕ → ℕ → Bool :=
  (dilationStep r c mask)^[it] input

/-- Row-major pixel coordinates of an `r × c` raster, the order in which
numpy boolean-mask extraction flattens an array. -/
def pixelList (r c : ℕ) : List (ℕ × ℕ) :=
  (List.range r).flatMap fun i => (List.range c).map fun j => (i, j)

/-- Model of numpy boolean-mask extraction `band[mask]`: the values of the
selected pixels in row-major order (NaN entries are kept, as in numpy). -/
def extract (r c : ℕ) (g : ℕ → ℕ → Option ℚ) (m : ℕ → ℕ → Bool) :
    List (Option ℚ) :=
  (pixelList r c).filterMap fun p => if m p.1 p.2 then some (g p.1 p.2) else none

/-- Boolean-mask extraction of a boolean raster, row-major. -/
def extractBool (r c : ℕ) (g : ℕ → ℕ → Bool) (m : ℕ → ℕ → Bool) : List Bool :=
  (pixelList r c).filterMap fun p => if m p.1 p.2 then some (g p.1 p.2) else none

/-! ## The dark-land component classifier (`process_dark_land_component`)

The worker receives the component index `i`, its pixel count `sizes`, and
windows of four rasters: the landcover map (read but unused in the body),
the stack of filtered intensity bands, the binary reference-land raster and
the labeled water raster.  We bundle these in `DarkLandArgs`. -/

/-- Arguments of one dark-land classification job (the raster windows are
already read; `bands` is the list of per-polarization intensity rasters). -/
structure DarkLandArgs where
  r : ℕ
  c : ℕ
  i : ℕ
  sizes : ℕ
  landcover : ℕ → ℕ → Option ℚ
  bands : List (ℕ → ℕ → Option ℚ)
  ref_land : ℕ → ℕ → Option ℚ
  water_label : ℕ → ℕ → ℕ
  pol_ind : ℕ
  minimum_pixel : ℕ
  debug_mode : Bool

/-- Result record of one dark-land job:
`(i, bimodality_array_i, ref_land_portion, metric_output_i)`. -/
structure DarkLandResult where
  idx : ℕ
  bimodality : Bool
  ref_land_portion : Option ℚ
  metric_output : List ℚ
deriving DecidableEq, Repr

/-- `out_boundary = (np.isnan(np.sum(bands, axis=0)) == 0) & (water_label == 0)`:
pixels where every band is valid and no water component is present. -/
def darkLand_out_boundary (a : DarkLandArgs) : ℕ → ℕ → Bool :=
  fun p q => a.bands.all (fun b => (b p q).isSome) && decide (a.water_label p q = 0)

/-- `watermask = water_label == i + 1`: the pixels of component `i`. -/
def darkLand_watermask (a : DarkLandArgs) : ℕ → ℕ → Bool :=
  fun p q => decide (a.water_label p q = a.i + 1)

/-- `ref_land_portion = np.nanmean(ref_land[mask])`: the land portion of
the component; NaN (`none`) when every reference-land value on the
component is NaN (or the component is absent from the window). -/
def darkLand_ref_land_portion (a : DarkLandArgs) : Option ℚ :=
  nanmean (extract a.r a.c a.ref_land (darkLand_watermask a))

/-- The dilation margin of the dark-land classifier:
`margin = int((np.sqrt(2) - 1.2) * np.sqrt(sizes)); if margin == 0: margin = 1`. -/
def darkLand_margin (a : DarkLandArgs) : ℕ :=
  if marginFloor a.sizes = 0 then 1 else marginFloor a.sizes

/-- `mask_buffer = ndimage.binary_dilation(watermask==1, iterations=margin,
mask=out_boundary)` — the component dilated by `margin` steps constrained
to valid non-water pixels.  Note that a dilation always contains its
input, so `mask_buffer` contains the component itself. -/
def darkLand_mask_buffer (a : DarkLandArgs) : ℕ → ℕ → Bool :=
  binary_dilation a.r a.c (darkLand_watermask a) (darkLand_margin a)
    (darkLand_out_boundary a)

/-- `single_band = bands[pol_ind, ...]`. -/
def darkLand_single_band (a : DarkLandArgs) : ℕ → ℕ → Option ℚ :=
  a.bands.getD a.pol_ind fun _ _ => none

/-- `intensity_center = np.nanmedian(single_band[watermask==1])`. -/
def darkLand_intensity_center (a : DarkLandArgs) : Option ℚ :=
  nanmedian (extract a.r a.c (darkLand_single_band a) (darkLand_watermask a))

/-- `intensity_adjacent_low = np.nanpercentile(single_band[(watermask==0) &
(mask_buffer==1)], 15)` — the 15th percentile of the intensity on the
buffer ring around the component (the buffer minus the component). -/
def darkLand_intensity_adjacent_low (a : DarkLandArgs) : Option ℚ :=
  nanpercentile 15
    (extract a.r a.c (darkLand_single_band a)
      (fun p q => !darkLand_watermask a p q && darkLand_mask_buffer a p q))

/-- `intensity_array = single_band[mask_buffer]` with NaN and zero values
dropped — the sample handed to `BimodalityMetrics`.  The extraction mask
is the whole dilated buffer, which includes the component pixels. -/
def darkLand_intensity_array (a : DarkLandArgs) : List ℚ :=
  ((extract a.r a.c (darkLand_single_band a) (darkLand_mask_buffer a)).filterMap
    id).filter fun v => decide (v ≠ 0)

/-- Shallow embedding of `process_dark_land_component`.

`metricOracle s` stands for `BimodalityMetrics(s).compute_metric(thresholds)`
and `metricsOracle s` for `BimodalityMetrics(s).get_metric()`; both are
arbitrary, so every theorem below holds whatever those numerics return. -/
def process_dark_land_component (metricOracle : List ℚ → Bool)
    (metricsOracle : List ℚ → List ℚ) (a : DarkLandArgs) : DarkLandResult :=
  let metric_output₀ : List ℚ := List.replicate 5 0
  let portion := darkLand_ref_land_portion a
  if decide (a.minimum_pixel ≤ a.sizes) && portion.isSome then
    if decide ((0.8 : ℚ) < portion.getD 0) then
      if optGt (darkLand_intensity_center a) (darkLand_intensity_adjacent_low a) then
        ⟨a.i, false, portion, metric_output₀⟩
      else
        let intensity_array := darkLand_intensity_array a
        if decide (4 < intensity_array.length) then
          ⟨a.i, metricOracle intensity_array, portion,
            if a.debug_mode then metricsOracle intensity_array else metric_output₀⟩
        else
          ⟨a.i, false, portion, metric_output₀⟩
    else
      ⟨a.i, true, portion, metric_output₀⟩
  else
    ⟨a.i, false, portion, metric_output₀⟩

/-! ## The decision rule of `BimodalityMetrics.compute_metric`

The five metric values (and the two fallback statistics) are numerical
outputs of the mixture fit; they enter as parameters.  In the branch where
`optimization` holds, `get_metric()` returns five numbers, so the
`is None` alternatives of the source are vacuous there; the embedding
keeps the metric flags of the signature. -/

/-- Shallow embedding of `BimodalityMetrics.compute_metric`.
`optimization` is the success flag of the two-Gaussian fit,
`int_db_len` is `len(self.int_db)`, `ashman … bc_coeff` are the values of
`get_metric()`, and `bt_max`/`ad_max` the values of
`estimate_bimodality(self.int_db)` used by the fallback branch.
`thresholds = [ashman, bhc, surface_ratio, bm]` as in the source. -/
def compute_metric (optimization : Bool) (int_db_len : ℕ)
    (ashman bhc surface_ratio bm_coeff bc_coeff : ℚ) (bt_max ad_max : ℚ)
    (ashman_flag bhc_flag bm_flag surface_ratio_flag bc_flag : Bool)
    (thresholds : List ℚ) : Bool :=
  if optimization && decide (4 < int_db_len) then
    let bm_coeff_bool := bm_flag && decide (thresholds.getD 3 0 < bm_coeff)
    let ashman_bool := ashman_flag && decide (thresholds.getD 0 0 < ashman)
    let _bhc_bool := bhc_flag && decide (thresholds.getD 1 0 < bhc)
    let surface_ratio_bool := surface_ratio_flag && decide (thresholds.getD 2 0 < surface_ratio)
    let bc_coeff_bool := bc_flag && decide ((5 : ℚ) / 9 < bc_coeff)
    let bimodal_metrics := ashman_bool.toNat + bm_coeff_bool.toNat + bc_coeff_bool.toNat
    (decide (2 ≤ bimodal_metrics) || decide ((3 : ℚ) < ashman)) && surface_ratio_bool
  else
    decide (thresholds.getD 3 0 < bt_max) && decide ((1.5 : ℚ) < ad_max)

/-! ## Otsu-threshold selection in `BimodalityMetrics.__init__`

`threshold_otsu` and `threshold_multiotsu` are skimage numerics; the
embedding takes their outputs as parameters and models the selection
logic of lines 72–86 of the source.  The result is `none` exactly when
the source raises an uncaught `IndexError`: the guard accepts any
multi-Otsu level `≥ bound0`, but the subsequent `np.where` selection
requires a level strictly inside `(bound0, bound1)`, and
`ind[0][0]` on an empty index array raises. -/

/-- The threshold kept by `BimodalityMetrics.__init__` as a function of the
global Otsu threshold and the multi-Otsu levels; `none` models the
uncaught `IndexError` on `self.threshold_global_otsu_ind[0][0]`. -/
def select_otsu_threshold (threshold_global_otsu : ℚ) (multi : List ℚ)
    (bound0 bound1 : ℚ) : Option ℚ :=
  if decide (threshold_global_otsu < bound0) then
    if multi.any (fun t => decide (bound0 ≤ t)) then
      match multi.filter (fun t => decide (bound0 < t) && decide (t < bound1)) with
      | [] => none
      | t :: _ => some t
    else some threshold_global_otsu
  else some threshold_global_otsu

/-! ## The bright-water component classifier (`process_bright_water_component`) -/

/-- Arguments of one bright-water (gap-fill) classification job. -/
structure BrightWaterArgs where
  r : ℕ
  c : ℕ
  ind_bright_water : ℕ
  sizes : ℕ
  landcover : ℕ → ℕ → Option ℚ
  bands : List (ℕ → ℕ → Option ℚ)
  output_water : ℕ → ℕ → ℕ
  ref_land : ℕ → ℕ → Option ℚ
  pol_ind : ℕ
  threshold0 : ℚ
  threshold1 : ℚ

/-- The polarization band selected on read (`image[pol_ind]` for the
multi-band intensity file). -/
def bright_single_band (a : BrightWaterArgs) : ℕ → ℕ → Option ℚ :=
  a.bands.getD a.pol_ind fun _ _ => none

/-- `adjacent_areas = (np.isnan(np.sum(bands, axis=0)) == 0) & (output_water == 0)`.
Here `bands` is already the selected 2-D band, so `np.sum(..., axis=0)`
sums over image rows and yields one value per column; the comparison then
broadcasts that row vector over all rows.  A pixel qualifies iff its whole
column is NaN-free and it carries no water label. -/
def bright_adjacent_areas (a : BrightWaterArgs) : ℕ → ℕ → Bool :=
  fun p q =>
    ((List.range a.r).all fun i => (bright_single_band a i q).isSome) &&
    decide (a.output_water p q = 0)

/-- `landcover_water = (ref_land == 0) | (landcover == 0)` (a NaN entry
compares unequal to `0`, as in numpy). -/
def landcover_water (a : BrightWaterArgs) : ℕ → ℕ → Bool :=
  fun p q => decide (a.ref_land p q = some 0) || decide (a.landcover p q = some 0)

/-- `mask_water = output_water == ind_bright_water + 1`. -/
def bright_mask_water (a : BrightWaterArgs) : ℕ → ℕ → Bool :=
  fun p q => decide (a.output_water p q = a.ind_bright_water + 1)

/-- `landcover_portion`: mean of the boolean `landcover_water` over the
component pixels, `0` when the component is absent from the window. -/
def bright_landcover_portion (a : BrightWaterArgs) : ℚ :=
  let target := extractBool a.r a.c (landcover_water a) (bright_mask_water a)
  if 0 < target.length then (target.countP id : ℚ) / target.length else 0

/-- Shallow embedding of `process_bright_water_component`; returns
`(bt_value, ad_value, ind_bright_water)`.  `estimateOracle s` stands for
`estimate_bimodality(10 * np.log10(s))` on the extracted sample and is
arbitrary. -/
def process_bright_water_component
    (estimateOracle : List (Option ℚ) → ℚ × ℚ) (a : BrightWaterArgs) :
    ℚ × ℚ × ℕ :=
  let ad_value := a.threshold1 + 0.5
  let bt_value := a.threshold0 + 0.5
  if decide ((0.99 : ℚ) < bright_landcover_portion a) then
    let margin := max (marginFloor a.sizes) 5
    let mask_buffer :=
      binary_dilation a.r a.c (bright_mask_water a) margin (bright_adjacent_areas a)
    let res := estimateOracle (extract a.r a.c (bright_single_band a) mask_buffer)
    (res.1, res.2, a.ind_bright_water)
  else
    (bt_value, ad_value, a.ind_bright_water)

/-- The gap-fill verdict computed by `fill_gap_water_bimodality_parallel`
from a worker result: `(bt_value < threshold[0]) | (ad_value < threshold[1])`. -/
def fill_gap_verdict (threshold0 threshold1 bt_value ad_value : ℚ) : Bool :=
  decide (bt_value < threshold0) || decide (ad_value < threshold1)

/-! ## Block pass: component eligibility, verdict scatter, label lookup -/

/-- Connected-component statistics row as produced by
`cv2.connectedComponentsWithStats` (bounding box and pixel count); the
bounding-box row `bbox_y` is relative to the block. -/
structure CompStat where
  bbox_x : ℕ
  bbox_y : ℕ
  bbox_w : ℕ
  bbox_h : ℕ
  size : ℕ
deriving DecidableEq, Repr

/-- The dispatch condition of the dark-land block pass: a component is
handed to the worker pool iff its bounding box touches neither the top nor
the bottom edge of the block and it has at least `minimum_pixel` pixels
(`if bbox_y != 0 and (bbox_y + bbox_h) != block_param.block_length and
size >= minimum_pixel`). -/
def componentEligible (block_length minimum_pixel : ℕ) (s : CompStat) : Bool :=
  decide (s.bbox_y ≠ 0) && decide (s.bbox_y + s.bbox_h ≠ block_length) &&
  decide (minimum_pixel ≤ s.size)

/-- Indices of the components dispatched to the worker pool in one block
(the keys of `component_data`). -/
def dispatchedIndices (block_length minimum_pixel : ℕ) (stats : List CompStat) :
    List ℕ :=
  (List.range stats.length).filter fun ind =>
    match stats[ind]? with
    | some s => componentEligible block_length minimum_pixel s
    | none => false

/-- Scatter of the pool results into the label-indexed verdict and check
arrays: for each result `(ind, verdict)` the loop sets
`bimodality_output[ind] = verdict` and `check_output[ind] = 0`. -/
def scatterResults (results : List (ℕ × Bool)) (verdict0 : List Bool)
    (check0 : List ℕ) : List Bool × List ℕ :=
  results.foldl (fun acc res => (acc.1.set res.1 res.2, acc.2.set res.1 0))
    (verdict0, check0)

/-- `np.searchsorted(xs, v)` for an ascending `xs` (left insertion point):
the number of elements smaller than `v`. -/
def np_searchsorted (xs : List ℚ) (v : ℚ) : ℕ :=
  xs.countP fun x => decide (x < v)

/-- `old_val = np.arange(1, nb_components + 1) - .1`. -/
def oldVal (nb_components : ℕ) : List ℚ :=
  (List.range nb_components).map fun k => ((k : ℚ) + 1) - 0.1

/-- Verdict and check arrays of one block pass: `nb_components` components
with statistics `stats`, worker verdicts `verdictOf`; initial arrays are
`np.zeros` and `np.ones`. -/
def blockPassOutputs (block_length minimum_pixel : ℕ) (stats : List CompStat)
    (verdictOf : ℕ → Bool) : List Bool × List ℕ :=
  scatterResults
    ((dispatchedIndices block_length minimum_pixel stats).map fun ind =>
      (ind, verdictOf ind))
    (List.replicate stats.length false) (List.replicate stats.length 1)

/-- Scatter the per-component verdict/check tables to the pixel grid of
labels: `np.insert(table, 0, 0)` then indexing with
`np.searchsorted(old_val, output_water)`. -/
def scatterImages (nb_components : ℕ) (results : List (ℕ × Bool))
    (labels : List (List ℕ)) : List (List Bool) × List (List ℕ) :=
  let tables := scatterResults results (List.replicate nb_components false)
    (List.replicate nb_components 1)
  let vtable := false :: tables.1
  let ctable := 0 :: tables.2
  (labels.map fun row => row.map fun lab =>
      vtable.getD (np_searchsorted (oldVal nb_components) (lab : ℚ)) false,
   labels.map fun row => row.map fun lab =>
      ctable.getD (np_searchsorted (oldVal nb_components) (lab : ℚ)) 0)

/-! ## The spec-side ring sample (for the refinement comparison of C4)

The specification describes the sample handed to the bimodality test as
the "ring" (adjacent buffer excluding the component); the source extracts
`single_band[mask_buffer]`, i.e. the whole buffer including the component.
The following definition follows the specification's words so that the two
can be compared. -/

/-- The sample the specification describes: intensity over the adjacent
buffer ring excluding the component, with NaN and zero values dropped. -/
def darkLandRingSampleSpec (a : DarkLandArgs) : List ℚ :=
  ((extract a.r a.c (darkLand_single_band a)
      (fun p q => !darkLand_watermask a p q && darkLand_mask_buffer a p q)).filterMap
    id).filter fun v => decide (v ≠ 0)

/-! ## Concrete inputs used by counterexamples and witnesses -/

/-- A 4 × 4 label raster with one 2 × 2 component (label 1) in the centre. -/
def exCenterLabel : ℕ → ℕ → ℕ := fun p q =>
  if (p = 1 ∨ p = 2) ∧ (q = 1 ∨ q = 2) then 1 else 0

/-- Intensity for the C1 counterexample: the component is bright (value 10),
the eight pixels edge-adjacent to it are dark (value 1), the corners NaN. -/
def exBrighterBand : ℕ → ℕ → Option ℚ := fun p q =>
  if (p = 1 ∨ p = 2) ∧ (q = 1 ∨ q = 2) then some 10
  else if (p = 0 ∧ (q = 1 ∨ q = 2)) ∨ (p = 3 ∧ (q = 1 ∨ q = 2)) ∨
      ((p = 1 ∨ p = 2) ∧ (q = 0 ∨ q = 3)) then some 1
  else none

/-- Dark-land arguments for the C1 counterexample: component of size 4
(= `minimum_pixel`), reference land everywhere (portion 1), component
brighter than its surroundings. -/
def exBrighterArgs : DarkLandArgs :=
  ⟨4, 4, 0, 4, fun _ _ => none, [exBrighterBand], fun _ _ => some 1,
    exCenterLabel, 0, 4, false⟩

/-- Intensity for the C4 counterexample: component value 1; of the eight
edge-adjacent pixels, `(0,1)` has intensity 0, pixels `(0,2)`, `(1,0)`,
`(1,3)`, `(2,0)` have intensity 10, and the remaining three are NaN (which
keeps them out of the dilated buffer). -/
def exBufferBand : ℕ → ℕ → Option ℚ := fun p q =>
  if (p = 1 ∨ p = 2) ∧ (q = 1 ∨ q = 2) then some 1
  else if p = 0 ∧ q = 1 then some 0
  else if (p = 0 ∧ q = 2) ∨ (p = 1 ∧ q = 0) ∨ (p = 1 ∧ q = 3) ∨
      (p = 2 ∧ q = 0) then some 10
  else none

/-- Dark-land arguments for the C4 counterexample: the ring holds only five
pixels, one of them of intensity 0, so the ring sample has 4 valid values
while the buffer sample (ring plus component) has 8. -/
def exBufferArgs : DarkLandArgs :=
  ⟨4, 4, 0, 4, fun _ _ => none, [exBufferBand], fun _ _ => some 1,
    exCenterLabel, 0, 4, false⟩

/-- A 1 × 1 raster whose single pixel is component 1. -/
def exOneLabel : ℕ → ℕ → ℕ := fun _ _ => 1

/-- Dark-land arguments with reference land 0 on the component
(`land_portion = 0 ≤ 0.8`), for the C5 witness. -/
def exLowPortionArgs : DarkLandArgs :=
  ⟨1, 1, 0, 1, fun _ _ => none, [fun _ _ => some 5], fun _ _ => some 0,
    exOneLabel, 0, 1, false⟩

/-- Dark-land arguments of a component smaller than `minimum_pixel`,
for the C6 witness. -/
def exSmallArgs : DarkLandArgs :=
  ⟨1, 1, 0, 1, fun _ _ => none, [fun _ _ => some 5], fun _ _ => some 1,
    exOneLabel, 0, 4, false⟩

/-- Dark-land arguments whose reference-land raster is NaN on the whole
component (`land_portion` NaN), for the C10 witness. -/
def exNanArgs : DarkLandArgs :=
  ⟨1, 1, 0, 4, fun _ _ => none, [fun _ _ => some 5], fun _ _ => none,
    exOneLabel, 0, 4, true⟩

/-- Bright-water arguments whose component is absent from the window
(`landcover_portion = 0 ≤ 0.99`), for the C8 witness. -/
def exBrightWaterArgs : BrightWaterArgs :=
  ⟨1, 1, 0, 1, fun _ _ => none, [fun _ _ => some 1], fun _ _ => 0,
    fun _ _ => none, 0, 0.7, 1.5⟩

/-- Component statistics touching the top edge of a block, for the C2
witness. -/
def exTouchStat : CompStat := ⟨3, 0, 5, 7, 40⟩

/-- Interior component statistics for the full-image conjunct of the C2
witness. -/
def exInteriorStat : CompStat := ⟨3, 10, 5, 7, 40⟩

/-! ## Helper lemmas -/

theorem pixelList_four : pixelList 4 4 =
    [(0,0),(0,1),(0,2),(0,3),(1,0),(1,1),(1,2),(1,3),
     (2,0),(2,1),(2,2),(2,3),(3,0),(3,1),(3,2),(3,3)] := by decide

theorem pixelList_one : pixelList 1 1 = [(0,0)] := by decide

/-! ## C6 — a component below `minimum_pixel` is always rejected -/

/-- Claim C6: for every component with `size < minimum_pixel`, the
dark-land classifier's verdict is False, regardless of land portion or
intensity content. -/
theorem darkLand_small_component_rejected (mo : List ℚ → Bool)
    (ms : List ℚ → List ℚ) (a : DarkLandArgs)
    (hsize : a.sizes < a.minimum_pixel) :
    (process_dark_land_component mo ms a).bimodality = false := by
  simp [process_dark_land_component, Nat.not_le.mpr hsize]

/-- Witness for C6 at a concrete component of size 1 with
`minimum_pixel = 4`. -/
theorem darkLand_small_component_rejected_wit :
    (process_dark_land_component (fun _ => true) (fun _ => List.replicate 5 0)
      exSmallArgs).bimodality = false :=
  darkLand_small_component_rejected _ _ _ (by decide)

/-! ## C5 — a component with low land portion is always accepted -/

/-- Claim C5: every component processed by the dark-land classifier (the
block pass dispatches only components with `size ≥ minimum_pixel`) whose
computed `land_portion` is a number `≤ 0.8` receives verdict True,
regardless of the intensity content of the component or its
surroundings (the intensity rasters are arbitrary here). -/
theorem darkLand_low_land_portion_accepted (mo : List ℚ → Bool)
    (ms : List ℚ → List ℚ) (a : DarkLandArgs) (p : ℚ)
    (hsize : a.minimum_pixel ≤ a.sizes)
    (hport : darkLand_ref_land_portion a = some p) (hle : p ≤ 0.8) :
    (process_dark_land_component mo ms a).bimodality = true := by
  simp [process_dark_land_component, hport, hsize, not_lt.mpr hle]

/-- Witness for C5 at a concrete single-pixel component whose reference
land value is 0. -/
theorem darkLand_low_land_portion_accepted_wit :
    (process_dark_land_component (fun _ => true) (fun _ => List.replicate 5 0)
      exLowPortionArgs).bimodality = true :=
  darkLand_low_land_portion_accepted _ _ _ 0 (by decide)
    (by
      simp +decide [darkLand_ref_land_portion, extract, pixelList_one,
        darkLand_watermask, exLowPortionArgs, exOneLabel, nanmean])
    (by norm_num)

/-! ## C10 — a NaN land portion is treated like the too-small case -/

/-- Claim C10: when the reference-land values over the component are all
NaN (so `land_portion` is NaN), the classifier returns verdict False with
the zero metric vector, even when the component's size is at least
`minimum_pixel`. -/
theorem darkLand_nan_land_portion_rejected (mo : List ℚ → Bool)
    (ms : List ℚ → List ℚ) (a : DarkLandArgs)
    (_hsize : a.minimum_pixel ≤ a.sizes)
    (hnan : darkLand_ref_land_portion a = none) :
    (process_dark_land_component mo ms a).bimodality = false ∧
    (process_dark_land_component mo ms a).metric_output = List.replicate 5 0 := by
  constructor <;> simp [process_dark_land_component, hnan]

/-- Witness for C10 at a concrete component of size 4 (`= minimum_pixel`)
with a NaN reference-land raster (and `debug_mode` on, so the zero metric
vector is not explained by the debug flag). -/
theorem darkLand_nan_land_portion_rejected_wit :
    (process_dark_land_component (fun _ => true) (fun _ => List.replicate 5 9)
      exNanArgs).bimodality = false ∧
    (process_dark_land_component (fun _ => true) (fun _ => List.replicate 5 9)
      exNanArgs).metric_output = List.replicate 5 0 :=
  darkLand_nan_land_portion_rejected _ _ _ (by decide)
    (by
      simp +decide [darkLand_ref_land_portion, extract, pixelList_one,
        darkLand_watermask, exNanArgs, exOneLabel, nanmean])

/-! ## C1 — a component brighter than its surroundings

The specification says a component with `size ≥ minimum_pixel`,
`land_portion > 0.8` and `center_intensity > adjacent_low` is accepted
(verdict True).  The source assigns `bimodality_array_i = False` on that
branch, so such a component is rejected; the counterexample exhibits this
on a concrete raster, and the amended statement (verdict False) is proved
in general. -/

/-- Counterexample to claim C1: a size-4 component (`minimum_pixel = 4`)
with land portion 1 (> 0.8) whose median intensity (10) exceeds the 15th
percentile of its buffer ring (1); the classifier returns verdict False
even with a metric oracle that always answers True, while the claim
predicts verdict True. -/
theorem darkLand_brighter_component_rejected_cex :
    (process_dark_land_component (fun _ => true) (fun _ => List.replicate 5 0)
        exBrighterArgs =
      ⟨0, false, some 1, List.replicate 5 0⟩) ∧
    darkLand_ref_land_portion exBrighterArgs = some 1 ∧
    optGt (darkLand_intensity_center exBrighterArgs)
      (darkLand_intensity_adjacent_low exBrighterArgs) = true ∧
    exBrighterArgs.minimum_pixel ≤ exBrighterArgs.sizes := by
  have hport : darkLand_ref_land_portion exBrighterArgs = some 1 := by
    simp +decide [darkLand_ref_land_portion, extract, pixelList_four,
      darkLand_watermask, exBrighterArgs, exCenterLabel, nanmean]
    norm_num
  have hcen : darkLand_intensity_center exBrighterArgs = some 10 := by
    simp +decide [darkLand_intensity_center, nanmedian, extract, pixelList_four,
      darkLand_watermask, darkLand_single_band, exBrighterArgs, exCenterLabel,
      exBrighterBand, nanpercentile, sortQ, insertSorted]
    norm_num
  have hlow : darkLand_intensity_adjacent_low exBrighterArgs = some 1 := by
    simp +decide [darkLand_intensity_adjacent_low, extract, pixelList_four,
      darkLand_watermask, darkLand_single_band, darkLand_mask_buffer,
      binary_dilation, darkLand_margin, darkLand_out_boundary, dilationStep,
      dilationHit, gridAt, exBrighterArgs, exCenterLabel, exBrighterBand,
      nanpercentile, sortQ, insertSorted]
    norm_num
  have hgt : optGt (darkLand_intensity_center exBrighterArgs)
      (darkLand_intensity_adjacent_low exBrighterArgs) = true := by
    rw [hcen, hlow]; simp [optGt]
  refine ⟨?_, hport, hgt, by decide⟩
  simp [process_dark_land_component, hport, hgt]
  rw [if_pos (by decide), if_pos (by norm_num)]
  rfl

/-- Amended claim C1: for every component with `size ≥ minimum_pixel` and
`land_portion > 0.8` whose median intensity exceeds the 15th percentile of
the adjacent buffer ring, the verdict is False (the component is removed),
whatever the bimodality oracle would answer. -/
theorem darkLand_brighter_component_rejected (mo : List ℚ → Bool)
    (ms : List ℚ → List ℚ) (a : DarkLandArgs) (p : ℚ)
    (hsize : a.minimum_pixel ≤ a.sizes)
    (hport : darkLand_ref_land_portion a = some p) (hgt : 0.8 < p)
    (hbright : optGt (darkLand_intensity_center a)
      (darkLand_intensity_adjacent_low a) = true) :
    (process_dark_land_component mo ms a).bimodality = false := by
  simp [process_dark_land_component, hport, hsize, hgt, hbright]

/-- Witness for the amended C1 at the concrete raster of the
counterexample input. -/
theorem darkLand_brighter_component_rejected_wit :
    (process_dark_land_component (fun _ => false) (fun _ => List.replicate 5 0)
      exBrighterArgs).bimodality = false := by
  refine darkLand_brighter_component_rejected _ _ _ 1 (by decide) ?_ (by norm_num) ?_
  · simp +decide [darkLand_ref_land_portion, extract, pixelList_four,
      darkLand_watermask, exBrighterArgs, exCenterLabel, nanmean]
    norm_num
  · have hcen : darkLand_intensity_center exBrighterArgs = some 10 := by
      simp +decide [darkLand_intensity_center, nanmedian, extract, pixelList_four,
        darkLand_watermask, darkLand_single_band, exBrighterArgs, exCenterLabel,
        exBrighterBand, nanpercentile, sortQ, insertSorted]
      norm_num
    have hlow : darkLand_intensity_adjacent_low exBrighterArgs = some 1 := by
      simp +decide [darkLand_intensity_adjacent_low, extract, pixelList_four,
        darkLand_watermask, darkLand_single_band, darkLand_mask_buffer,
        binary_dilation, darkLand_margin, darkLand_out_boundary, dilationStep,
        dilationHit, gridAt, exBrighterArgs, exCenterLabel, exBrighterBand,
        nanpercentile, sortQ, insertSorted]
      norm_num
    rw [hcen, hlow]; simp [optGt]

/-! ## C4 — which sample feeds the bimodality test

On the not-brighter branch, the source extracts `single_band[mask_buffer]`
— the dilated buffer *including* the component — and drops NaN/zero
values, while the specification describes the sample as the ring
*excluding* the component.  On `exBufferArgs` the ring holds 4 valid
values (claim: verdict False) but the buffer holds 8, so the metric oracle
is consulted. -/

/-- Counterexample to claim C4: with an always-True metric oracle the
classifier answers True on `exBufferArgs` although the ring sample
described by the claim has fewer than 5 valid values, which by the claim
would force verdict False. -/
theorem darkLand_buffer_sample_cex :
    (process_dark_land_component (fun _ => true) (fun _ => List.replicate 5 0)
        exBufferArgs =
      ⟨0, true, some 1, List.replicate 5 0⟩) ∧
    (darkLandRingSampleSpec exBufferArgs).length < 5 ∧
    (darkLand_intensity_array exBufferArgs).length = 8 ∧
    optGt (darkLand_intensity_center exBufferArgs)
      (darkLand_intensity_adjacent_low exBufferArgs) = false ∧
    darkLand_ref_land_portion exBufferArgs = some 1 := by
  have hport : darkLand_ref_land_portion exBufferArgs = some 1 := by
    simp +decide [darkLand_ref_land_portion, extract, pixelList_four,
      darkLand_watermask, exBufferArgs, exCenterLabel, nanmean]
    norm_num
  have hcen : darkLand_intensity_center exBufferArgs = some 1 := by
    simp +decide [darkLand_intensity_center, nanmedian, extract, pixelList_four,
      darkLand_watermask, darkLand_single_band, exBufferArgs, exCenterLabel,
      exBufferBand, nanpercentile, sortQ, insertSorted]
    norm_num
  have hlow : darkLand_intensity_adjacent_low exBufferArgs = some 6 := by
    simp +decide [darkLand_intensity_adjacent_low, extract, pixelList_four,
      darkLand_watermask, darkLand_single_band, darkLand_mask_buffer,
      binary_dilation, darkLand_margin, darkLand_out_boundary, dilationStep,
      dilationHit, gridAt, exBufferArgs, exCenterLabel, exBufferBand,
      nanpercentile, sortQ, insertSorted]
    norm_num
  have hdark : optGt (darkLand_intensity_center exBufferArgs)
      (darkLand_intensity_adjacent_low exBufferArgs) = false := by
    rw [hcen, hlow]; simp [optGt]
  have hring : darkLandRingSampleSpec exBufferArgs = [10, 10, 10, 10] := by
    simp +decide [darkLandRingSampleSpec, extract, pixelList_four,
      darkLand_watermask, darkLand_single_band, darkLand_mask_buffer,
      binary_dilation, darkLand_margin, darkLand_out_boundary, dilationStep,
      dilationHit, gridAt, exBufferArgs, exCenterLabel, exBufferBand]
  have hsample : darkLand_intensity_array exBufferArgs =
      [10, 10, 1, 1, 10, 10, 1, 1] := by
    simp +decide [darkLand_intensity_array, extract, pixelList_four,
      darkLand_watermask, darkLand_single_band, darkLand_mask_buffer,
      binary_dilation, darkLand_margin, darkLand_out_boundary, dilationStep,
      dilationHit, gridAt, exBufferArgs, exCenterLabel, exBufferBand]
  refine ⟨?_, by rw [hring]; decide, by rw [hsample]; decide, hdark, hport⟩
  simp [process_dark_land_component, hport, hdark, hsample]
  rfl

/-- Amended claim C4: on the not-brighter branch the bimodality test
samples the intensity over the whole dilated buffer (component included),
NaN and zero values dropped; with at most 4 valid samples the verdict is
False, otherwise it is the bimodality decision on that buffer sample. -/
theorem darkLand_bimodality_branch_uses_buffer_sample (mo : List ℚ → Bool)
    (ms : List ℚ → List ℚ) (a : DarkLandArgs) (p : ℚ)
    (hsize : a.minimum_pixel ≤ a.sizes)
    (hport : darkLand_ref_land_portion a = some p) (hgt : 0.8 < p)
    (hdark : optGt (darkLand_intensity_center a)
      (darkLand_intensity_adjacent_low a) = false) :
    (process_dark_land_component mo ms a).bimodality =
      if 4 < (darkLand_intensity_array a).length then
        mo (darkLand_intensity_array a)
      else false := by
  by_cases hlen : 4 < (darkLand_intensity_array a).length <;>
    simp [process_dark_land_component, hport, hsize, hgt, hdark, hlen]

/-- Witness for the amended C4 at the concrete raster of the
counterexample input. -/
theorem darkLand_bimodality_branch_uses_buffer_sample_wit :
    (process_dark_land_component (fun _ => true) (fun _ => List.replicate 5 0)
      exBufferArgs).bimodality =
      if 4 < (darkLand_intensity_array exBufferArgs).length then
        (fun _ : List ℚ => true) (darkLand_intensity_array exBufferArgs)
      else false := by
  refine darkLand_bimodality_branch_uses_buffer_sample _ _ _ 1 (by decide) ?_
    (by norm_num) ?_
  · simp +decide [darkLand_ref_land_portion, extract, pixelList_four,
      darkLand_watermask, exBufferArgs, exCenterLabel, nanmean]
    norm_num
  · have hcen : darkLand_intensity_center exBufferArgs = some 1 := by
      simp +decide [darkLand_intensity_center, nanmedian, extract, pixelList_four,
        darkLand_watermask, darkLand_single_band, exBufferArgs, exCenterLabel,
        exBufferBand, nanpercentile, sortQ, insertSorted]
      norm_num
    have hlow : darkLand_intensity_adjacent_low exBufferArgs = some 6 := by
      simp +decide [darkLand_intensity_adjacent_low, extract, pixelList_four,
        darkLand_watermask, darkLand_single_band, darkLand_mask_buffer,
        binary_dilation, darkLand_margin, darkLand_out_boundary, dilationStep,
        dilationHit, gridAt, exBufferArgs, exCenterLabel, exBufferBand,
        nanpercentile, sortQ, insertSorted]
      norm_num
    rw [hcen, hlow]; simp [optGt]

/-! ## C3 — the decision rule of `compute_metric` -/

/-- Claim C3: with all metric flags at their default True and thresholds
`[t0, t1, t2, t3]` (ashman, bhc, surface-ratio, bm), `compute_metric`
answers True (i) in the successful-fit branch with `n > 4` iff at least 2
of `ashman > t0`, `bm_coeff > t3`, `bc_coeff > 5/9` hold or `ashman > 3`,
and in addition `surface_ratio > t2`; and (ii) in the failed-fit branch
iff the fallback statistics satisfy `bt_max > t3` and `ad_max > 1.5`. -/
theorem compute_metric_decision_rule (n : ℕ)
    (ashman bhc surface_ratio bm_coeff bc_coeff bt_max ad_max t0 t1 t2 t3 : ℚ) :
    (4 < n →
      (compute_metric true n ashman bhc surface_ratio bm_coeff bc_coeff
          bt_max ad_max true true true true true [t0, t1, t2, t3] = true ↔
        ((2 ≤ (if t0 < ashman then 1 else 0) + (if t3 < bm_coeff then 1 else 0) +
            (if (5 : ℚ) / 9 < bc_coeff then 1 else 0) ∨ 3 < ashman) ∧
          t2 < surface_ratio))) ∧
    (compute_metric false n ashman bhc surface_ratio bm_coeff bc_coeff
        bt_max ad_max true true true true true [t0, t1, t2, t3] = true ↔
      (t3 < bt_max ∧ (1.5 : ℚ) < ad_max)) := by
  constructor
  · intro hn
    by_cases h1 : t0 < ashman <;> by_cases h2 : t3 < bm_coeff <;>
      by_cases h3 : (5 : ℚ) / 9 < bc_coeff <;>
      simp [compute_metric, hn, h1, h2, h3]
  · simp [compute_metric]

/-- Witness for C3 with `n = 5`, metrics that trip exactly the
`ashman`/`bm` criteria and the surface-ratio gate, and fallback statistics
below threshold. -/
theorem compute_metric_decision_rule_wit :
    compute_metric true 5 2 0 ((1 : ℚ)/2) 1 0 0 0 true true true true true
      [(3 : ℚ)/2, (97 : ℚ)/100, (1 : ℚ)/10, (7 : ℚ)/10] = true := by
  have h := (compute_metric_decision_rule 5 2 0 ((1 : ℚ)/2) 1 0 0 0
    ((3 : ℚ)/2) ((97 : ℚ)/100) ((1 : ℚ)/10) ((7 : ℚ)/10)).1 (by norm_num)
  exact h.mpr (by norm_num)

/-! ## C7 — the Otsu reselection can raise instead of retaining

When the global Otsu threshold is below the window, the source guards the
reselection with `any(multi >= bound0)` but selects with the strict window
condition `(multi > bound0) & (multi < bound1)`; when some level is
`≥ bound0` but none is strictly inside the window, the selection index
array is empty and `ind[0][0]` raises an uncaught `IndexError` inside
`BimodalityMetrics.__init__` — the original threshold is *not* retained
and the numerical issue is not absorbed locally. -/

/-- Failing input for claim C7: global Otsu `-20` (below the lower bound
`-18`), multi-Otsu levels `{-25, 3}`.  The guard fires (`3 ≥ -18`) but no
level lies in `(-18, 0)`, and the selection raises (`none`) instead of
retaining `-20`. -/
theorem otsu_selection_gap_raises :
    select_otsu_threshold (-20) [-25, 3] (-18) 0 = none ∧
    ((-20 : ℚ) < -18 ∧ ¬ ((-18 : ℚ) < -25 ∧ (-25 : ℚ) < 0) ∧
      ¬ ((-18 : ℚ) < 3 ∧ (3 : ℚ) < 0)) := by
  constructor
  · simp [select_otsu_threshold]
    norm_num
  · norm_num

/-! ## C8 — bright-water components with low water portion are rejected -/

/-- Claim C8: for every bright-water component whose landcover water
portion is at most 0.99, no bimodality estimation is performed — the
result is the default pair `(threshold0 + 0.5, threshold1 + 0.5)`
whatever the estimator oracle would return — and the gap-fill verdict
`(bt < threshold0) | (ad < threshold1)` on that pair is False. -/
theorem brightWater_low_water_portion_rejected
    (est : List (Option ℚ) → ℚ × ℚ) (a : BrightWaterArgs)
    (hport : bright_landcover_portion a ≤ 0.99) :
    process_bright_water_component est a =
      (a.threshold0 + 0.5, a.threshold1 + 0.5, a.ind_bright_water) ∧
    fill_gap_verdict a.threshold0 a.threshold1 (a.threshold0 + 0.5)
      (a.threshold1 + 0.5) = false := by
  constructor
  · simp [process_bright_water_component, not_lt.mpr hport]
  · simp only [fill_gap_verdict, Bool.or_eq_false_iff, decide_eq_false_iff_not]
    constructor <;> intro h <;> linarith

/-- Witness for C8 at a 1 × 1 window not containing the component, whose
landcover portion is therefore 0. -/
theorem brightWater_low_water_portion_rejected_wit :
    process_bright_water_component (fun _ => (0, 0)) exBrightWaterArgs =
      (exBrightWaterArgs.threshold0 + 0.5, exBrightWaterArgs.threshold1 + 0.5,
        exBrightWaterArgs.ind_bright_water) ∧
    fill_gap_verdict exBrightWaterArgs.threshold0 exBrightWaterArgs.threshold1
      (exBrightWaterArgs.threshold0 + 0.5) (exBrightWaterArgs.threshold1 + 0.5) =
      false :=
  brightWater_low_water_portion_rejected _ _
    (by
      simp +decide [bright_landcover_portion, extractBool, pixelList_one,
        bright_mask_water, landcover_water, exBrightWaterArgs]
      norm_num)

/-! ## Scatter lemmas for the block pass and the worker pool -/

theorem scatterResults_cons (x : ℕ × Bool) (rs : List (ℕ × Bool))
    (v : List Bool) (cz : List ℕ) :
    scatterResults (x :: rs) v cz =
      scatterResults rs (v.set x.1 x.2) (cz.set x.1 0) := rfl

theorem getD_replicate {α : Type} (n i : ℕ) (x : α) :
    (List.replicate n x).getD i x = x := by
  induction n generalizing i with
  | zero => cases i <;> rfl
  | succ n ih => cases i with
    | zero => rfl
    | succ i => exact ih i

theorem getD_set_ne {α : Type} (l : List α) (i j : ℕ) (hne : i ≠ j) (x d : α) :
    (l.set j x).getD i d = l.getD i d := by
  induction l generalizing i j with
  | nil => rfl
  | cons a l ih =>
    cases j with
    | zero => cases i with
      | zero => exact absurd rfl hne
      | succ i => rfl
    | succ j => cases i with
      | zero => rfl
      | succ i => exact ih i j (fun h => hne (by rw [h]))

theorem scatterResults_getD_of_notMem (rs : List (ℕ × Bool)) (v : List Bool)
    (cz : List ℕ) (i : ℕ) (h : i ∉ rs.map Prod.fst) :
    (scatterResults rs v cz).1.getD i false = v.getD i false ∧
    (scatterResults rs v cz).2.getD i 1 = cz.getD i 1 := by
  induction rs generalizing v cz with
  | nil => exact ⟨rfl, rfl⟩
  | cons x rs ih =>
    simp only [List.map_cons, List.mem_cons, not_or] at h
    rw [scatterResults_cons]
    have hrec := ih (v.set x.1 x.2) (cz.set x.1 0) h.2
    rw [hrec.1, hrec.2, getD_set_ne _ _ _ h.1, getD_set_ne _ _ _ h.1]
    exact ⟨rfl, rfl⟩

theorem scatterResults_perm {rs rs' : List (ℕ × Bool)} (h : rs.Perm rs') :
    (rs.map Prod.fst).Nodup →
    ∀ (v : List Bool) (cz : List ℕ),
      scatterResults rs v cz = scatterResults rs' v cz := by
  induction h with
  | nil => intro _ v cz; rfl
  | cons x hp ih =>
    intro hnd v cz
    rw [scatterResults_cons, scatterResults_cons]
    refine ih ?_ _ _
    simp only [List.map_cons, List.nodup_cons] at hnd
    exact hnd.2
  | swap x y l =>
    intro hnd v cz
    simp only [List.map_cons, List.nodup_cons, List.mem_cons, not_or] at hnd
    have hne : y.1 ≠ x.1 := hnd.1.1
    rw [scatterResults_cons, scatterResults_cons, scatterResults_cons,
      scatterResults_cons, List.set_comm _ _ _ hne, List.set_comm _ _ _ hne]
  | trans hp1 hp2 ih1 ih2 =>
    intro hnd v cz
    rw [ih1 hnd v cz, ih2 (((hp1.map Prod.fst).nodup_iff).mp hnd) v cz]

/-! ## C9 — verdict aggregation is order-independent -/

/-- Claim C9: scattering the worker-pool results into the label-indexed
verdict and check arrays is order-independent — for any permutation of
the result list (component indices are pairwise distinct) the scattered
arrays, and hence the per-pixel verdict and check images obtained by
label lookup, are identical. -/
theorem scatter_order_independent (nb : ℕ) (rs rs' : List (ℕ × Bool))
    (labels : List (List ℕ)) (hperm : rs.Perm rs')
    (hnd : (rs.map Prod.fst).Nodup) :
    scatterResults rs (List.replicate nb false) (List.replicate nb 1) =
      scatterResults rs' (List.replicate nb false) (List.replicate nb 1) ∧
    scatterImages nb rs labels = scatterImages nb rs' labels := by
  have key := scatterResults_perm hperm hnd
  exact ⟨key _ _, by simp only [scatterImages, key _ _]⟩

/-- Witness for C9: two results delivered in either order produce the same
arrays and images. -/
theorem scatter_order_independent_wit :
    scatterResults [(0, true), (1, false)] (List.replicate 2 false)
        (List.replicate 2 1) =
      scatterResults [(1, false), (0, true)] (List.replicate 2 false)
        (List.replicate 2 1) ∧
    scatterImages 2 [(0, true), (1, false)] [[0, 1], [2, 0]] =
      scatterImages 2 [(1, false), (0, true)] [[0, 1], [2, 0]] :=
  scatter_order_independent 2 _ _ _ (List.Perm.swap (1, false) (0, true) [])
    (by decide)

/-! ## C2 — boundary components receive no block-pass verdict -/

/-- Claim C2: a component whose bounding box touches the block's artificial
top or bottom edge (`read_start_line ≠ 0` resp.
`read_start_line + block_length ≠ rows`, so the touched edge is not the
true image edge) is never dispatched in the block pass: its check value
stays 1 and its verdict entry keeps the initial 0 (False) for every
possible worker verdict.  In the subsequent full-image pass the whole
raster is one block (`block_length = rows`), where any component of
sufficient size that does not touch the true image edge is dispatched. -/
theorem blockPass_boundary_component_deferred
    (block_length minimum_pixel read_start_line rows : ℕ)
    (stats : List CompStat) (verdictOf : ℕ → Bool) (ind : ℕ) (s s2 : CompStat)
    (hs : stats[ind]? = some s)
    (htouch : s.bbox_y = 0 ∨ s.bbox_y + s.bbox_h = block_length)
    (_h_top_artificial : s.bbox_y = 0 → read_start_line ≠ 0)
    (_h_bot_artificial : s.bbox_y + s.bbox_h = block_length →
      read_start_line + block_length ≠ rows)
    (h2top : s2.bbox_y ≠ 0) (h2bot : s2.bbox_y + s2.bbox_h ≠ rows)
    (h2size : minimum_pixel ≤ s2.size) :
    componentEligible block_length minimum_pixel s = false ∧
    ind ∉ dispatchedIndices block_length minimum_pixel stats ∧
    (blockPassOutputs block_length minimum_pixel stats verdictOf).2.getD ind 1 = 1 ∧
    (blockPassOutputs block_length minimum_pixel stats verdictOf).1.getD ind
      false = false ∧
    componentEligible rows minimum_pixel s2 = true := by
  have helig : componentEligible block_length minimum_pixel s = false := by
    rcases htouch with h | h <;> simp [componentEligible, h]
  have hnot : ind ∉ dispatchedIndices block_length minimum_pixel stats := by
    intro hmem
    rw [dispatchedIndices, List.mem_filter] at hmem
    rw [hs] at hmem
    simp [helig] at hmem
  have hkeys : ((dispatchedIndices block_length minimum_pixel stats).map
      fun ind => (ind, verdictOf ind)).map Prod.fst =
      dispatchedIndices block_length minimum_pixel stats := by
    rw [List.map_map]; exact List.map_id _
  have hpres := scatterResults_getD_of_notMem
    ((dispatchedIndices block_length minimum_pixel stats).map
      fun ind => (ind, verdictOf ind))
    (List.replicate stats.length false) (List.replicate stats.length 1) ind
    (by rw [hkeys]; exact hnot)
  refine ⟨helig, hnot, ?_, ?_, ?_⟩
  · rw [blockPassOutputs, hpres.2, getD_replicate]
  · rw [blockPassOutputs, hpres.1, getD_replicate]
  · simp [componentEligible, h2top, h2bot, h2size]

/-- Witness for C2: a single top-edge-touching component of a block with
`read_start_line = 500`, `block_length = 500`, `rows = 2000`, and an
interior component of the full-image pass. -/
theorem blockPass_boundary_component_deferred_wit :
    componentEligible 500 4 exTouchStat = false ∧
    0 ∉ dispatchedIndices 500 4 [exTouchStat] ∧
    (blockPassOutputs 500 4 [exTouchStat] fun _ => true).2.getD 0 1 = 1 ∧
    (blockPassOutputs 500 4 [exTouchStat] fun _ => true).1.getD 0 false = false ∧
    componentEligible 2000 4 exInteriorStat = true :=
  blockPass_boundary_component_deferred 500 4 500 2000 [exTouchStat]
    (fun _ => true) 0 exTouchStat exInteriorStat (by decide) (by decide)
    (by decide) (by decide) (by decide) (by decide) (by decide)
